import Mathlib

/-!
Verification development for the Geryon UCL_Matrix container
(src/ucl_matrix.h): a dual-memory-space matrix pairing a host buffer
(UCL_H_Mat) with a device buffer (UCL_D_Mat).

The UCL_Matrix member functions (alloc, clear, zero, numel/rows/cols,
operator[] and operator()) are translated directly from src/ucl_matrix.h.
The collaborating buffer classes UCL_H_Mat and UCL_D_Mat live in other
headers of the repository that are not part of src/, so their operations
are modelled from the spec's contract for them (sections 2, 3, 4.2 and 6
of the design document); each such definition carries a doc comment
saying so.

Machine integers: row/column counts are C++ size_t values used only as
counts, modelled as Nat; UCL error codes are C ints, modelled as Int with
UCL_SUCCESS = 0.  Element values are modelled as Int (the element TYPE
identity, which drives the view-vs-independent decision, is carried
separately as a type tag).
-/

/-- Tag for the C++ element types instantiating the UCL_Matrix template.
`ucl_same_type<hosttype,devtype>::ans` is compile-time type equality, so
only the identity of the tag matters. -/
inductive UCLTypeId
| tfloat
| tdouble
| tint
| tuint
| tlong
deriving DecidableEq

/-- Translation of the `ucl_same_type` trait: true iff the two element
types are the same C++ type. -/
def ucl_same_type (a b : UCLTypeId) : Bool := decide (a = b)

/-- The UCL_MEMOPT enumeration (pinning and usage hints plus the view
marker), from the repository's common header. Per the spec the hints
affect performance only, never correctness. -/
inductive UCL_MEMOPT
| UCL_READ_WRITE
| UCL_WRITE_ONLY
| UCL_READ_ONLY
| UCL_NOT_PINNED
| UCL_WRITE_OPTIMIZED
| UCL_RW_OPTIMIZED
| UCL_VIEW
deriving DecidableEq

/-- UCL status code for success.  Geryon status codes are C ints; any
nonzero value reports a failure. -/
def UCL_SUCCESS : Int := 0

/-- Modelled from the spec: the Host Buffer class UCL_H_Mat
(ucl_h_mat.h, not under src/).  A flat, row-major, unpadded store of
`rows*cols` elements of the host element type.  Besides the shape and
contents we carry instrumentation counters (allocation calls, successful
allocations, frees, zeroing operations applied to this storage) so that
the spec's mock-buffer counting properties can be stated. -/
structure UCL_H_Mat where
  allocated : Bool
  rows : Nat
  cols : Nat
  data : Nat → Int
  alloc_calls : Nat
  alloc_succ : Nat
  free_count : Nat
  zero_ops : Nat

/-- Modelled from the spec: a freshly constructed (never-allocated) host
buffer: zero-sized, owning nothing. -/
def UCL_H_Mat.init : UCL_H_Mat :=
  ⟨false, 0, 0, fun _ => 0, 0, 0, 0, 0⟩

/-- Number of elements of the host buffer (`UCL_H_Mat::numel`). -/
def UCL_H_Mat.numel (h : UCL_H_Mat) : Nat := h.rows * h.cols

/-- Modelled from the spec: `UCL_H_Mat::clear` — releases the storage if
any is held, and resets the shape to zero.  Safe on a never-allocated
buffer. -/
def UCL_H_Mat.clear (h : UCL_H_Mat) : UCL_H_Mat :=
  if h.allocated then
    { h with allocated := false, rows := 0, cols := 0,
             free_count := h.free_count + 1 }
  else
    { h with rows := 0, cols := 0 }

/-- Modelled from the spec: `UCL_H_Mat::alloc` — reallocation implicitly
releases prior storage, then the host allocator either succeeds (the
buffer now holds `rows*cols` elements, contents unspecified) or fails
with a nonzero status, leaving the buffer in the cleared zero-sized
state.  The external allocator's outcome is supplied as the status `e`;
the pinning hint never affects correctness. -/
def UCL_H_Mat.alloc (h : UCL_H_Mat) (rows cols : Nat) (e : Int)
    (kind : UCL_MEMOPT) : Int × UCL_H_Mat :=
  let h0 := h.clear
  let h1 := { h0 with alloc_calls := h0.alloc_calls + 1 }
  if e = UCL_SUCCESS then
    (UCL_SUCCESS, { h1 with allocated := true, rows := rows, cols := cols,
                            alloc_succ := h1.alloc_succ + 1 })
  else
    (e, h1)

/-- Modelled from the spec: zeroing the first `n` elements of the host
storage (`_host_zero` on `n` elements).  Increments the count of zeroing
operations applied to this storage. -/
def UCL_H_Mat.zeroFirst (h : UCL_H_Mat) (n : Nat) : UCL_H_Mat :=
  { h with data := fun i => if i < n then 0 else h.data i,
           zero_ops := h.zero_ops + 1 }

/-- Ownership state of the device buffer: never allocated / owning an
independent device allocation / a view aliasing the host storage. -/
inductive DevStorage
| unalloc
| owned
| view
deriving DecidableEq

/-- Modelled from the spec: the Device Buffer class UCL_D_Mat
(not under src/).  Either owns accelerator storage for `rows*cols`
device-type elements or merely views the host buffer's storage (a view
owns nothing: its element accesses alias the host storage).  `data` is
the independent device storage, meaningful only when `kind = owned`. -/
structure UCL_D_Mat where
  kind : DevStorage
  rows : Nat
  cols : Nat
  data : Nat → Int
  alloc_calls : Nat
  alloc_succ : Nat
  free_count : Nat

/-- Modelled from the spec: a freshly constructed device buffer. -/
def UCL_D_Mat.init : UCL_D_Mat :=
  ⟨.unalloc, 0, 0, fun _ => 0, 0, 0, 0⟩

/-- Number of elements of the device buffer. -/
def UCL_D_Mat.numel (d : UCL_D_Mat) : Nat := d.rows * d.cols

/-- Modelled from the spec: `UCL_D_Mat::clear` — frees device storage
only when the buffer owns an independent allocation; freeing a view must
not free the aliased storage.  Resets the shape to zero in every case. -/
def UCL_D_Mat.clear (d : UCL_D_Mat) : UCL_D_Mat :=
  match d.kind with
  | .owned =>
    { d with kind := .unalloc, rows := 0, cols := 0,
             free_count := d.free_count + 1 }
  | _ =>
    { d with kind := .unalloc, rows := 0, cols := 0 }

/-- Modelled from the spec: `UCL_D_Mat::alloc` — releases prior storage,
then the device allocator either succeeds (independent storage for
`rows*cols` elements) or fails with a nonzero status leaving the buffer
cleared.  The external allocator's outcome is supplied as `e`; the usage
hint never affects correctness. -/
def UCL_D_Mat.alloc (d : UCL_D_Mat) (rows cols : Nat) (e : Int)
    (kind : UCL_MEMOPT) : Int × UCL_D_Mat :=
  let d0 := d.clear
  let d1 := { d0 with alloc_calls := d0.alloc_calls + 1 }
  if e = UCL_SUCCESS then
    (UCL_SUCCESS, { d1 with kind := .owned, rows := rows, cols := cols,
                            alloc_succ := d1.alloc_succ + 1 })
  else
    (e, d1)

/-- Modelled from the spec: `UCL_D_Mat::view(host)` — releases any prior
storage and binds the buffer as an alias of the host buffer's storage:
no allocation is performed, the shape is taken from the host buffer. -/
def UCL_D_Mat.view (d : UCL_D_Mat) (h : UCL_H_Mat) : UCL_D_Mat :=
  let d0 := d.clear
  { d0 with kind := .view, rows := h.rows, cols := h.cols }

/-- Modelled from the spec: zeroing the first `n` elements of owned
device storage. -/
def UCL_D_Mat.zeroFirst (d : UCL_D_Mat) (n : Nat) : UCL_D_Mat :=
  { d with data := fun i => if i < n then 0 else d.data i }

/-- The UCL_Matrix S-Object from src/ucl_matrix.h: one host buffer and
one device buffer, plus the two element-type template arguments. -/
structure UCL_Matrix where
  hosttype : UCLTypeId
  devtype : UCLTypeId
  host : UCL_H_Mat
  device : UCL_D_Mat

/-- A default-constructed UCL_Matrix (the `UCL_Matrix()` constructor
allocates nothing). -/
def UCL_Matrix.init (ht dt : UCLTypeId) : UCL_Matrix :=
  ⟨ht, dt, UCL_H_Mat.init, UCL_D_Mat.init⟩

/-- Translation of `UCL_Matrix::alloc` (src/ucl_matrix.h lines 71-83;
the overload at lines 96-107 has the identical body):

    int e1=host.alloc(rows,cols,cq,kind1);
    if (e1!=UCL_SUCCESS) return e1;
    if (ucl_same_type<hosttype,devtype>::ans && device.shared_memory()) {
      device.view(host); return UCL_SUCCESS;
    } else
      return device.alloc(rows,cols,cq,kind2);

`shared_memory` is the queried capability of the target device/context
("does the device share physical memory with the host?"), a boolean
input.  `e1`/`e2` are the statuses the external host/device allocators
would report for this request. -/
def UCL_Matrix.alloc (m : UCL_Matrix) (rows cols : Nat)
    (shared_memory : Bool) (e1 e2 : Int) (kind1 kind2 : UCL_MEMOPT) :
    Int × UCL_Matrix :=
  let r1 := m.host.alloc rows cols e1 kind1
  let m1 : UCL_Matrix := { m with host := r1.2 }
  if r1.1 ≠ UCL_SUCCESS then
    (r1.1, m1)
  else if ucl_same_type m.hosttype m.devtype && shared_memory then
    (UCL_SUCCESS, { m1 with device := m1.device.view m1.host })
  else
    let r2 := m1.device.alloc rows cols e2 kind2
    (r2.1, { m1 with device := r2.2 })

/-- Translation of `UCL_Matrix::clear` (src/ucl_matrix.h lines 118-120):
`host.clear(); device.clear();`. -/
def UCL_Matrix.clear (m : UCL_Matrix) : UCL_Matrix :=
  { m with host := m.host.clear, device := m.device.clear }

/-- Translation of `UCL_Matrix::zero()` (src/ucl_matrix.h line 123):
`host.zero(); device.zero();`.  `host.zero()` zeroes all `host.numel()`
elements of the host storage.  `device.zero()` zeroes all
`device.numel()` elements the device buffer refers to: its own storage
when it owns an independent allocation, the aliased host storage when it
is a view (spec section 5: with a VIEW disposition host and device
operations touch the same physical storage), and nothing when it was
never allocated (zero bytes). -/
def UCL_Matrix.zero (m : UCL_Matrix) : UCL_Matrix :=
  let m1 : UCL_Matrix := { m with host := m.host.zeroFirst m.host.numel }
  match m1.device.kind with
  | .owned => { m1 with device := m1.device.zeroFirst m1.device.numel }
  | .view  => { m1 with host := m1.host.zeroFirst m1.device.numel }
  | .unalloc => m1

/-- Translation of `UCL_Matrix::zero(n)` (src/ucl_matrix.h line 126):
`host.zero(n); device.zero(n);` — zeroes the first `n` elements on each
side, with the same aliasing behaviour as `zero()`. -/
def UCL_Matrix.zeroN (m : UCL_Matrix) (n : Nat) : UCL_Matrix :=
  let m1 : UCL_Matrix := { m with host := m.host.zeroFirst n }
  match m1.device.kind with
  | .owned => { m1 with device := m1.device.zeroFirst n }
  | .view  => { m1 with host := m1.host.zeroFirst n }
  | .unalloc => m1

/-- Translation of `UCL_Matrix::numel` (line 129): `host.numel()`. -/
def UCL_Matrix.numel (m : UCL_Matrix) : Nat := m.host.numel

/-- Translation of `UCL_Matrix::rows` (line 131): `host.rows()`. -/
def UCL_Matrix.rows (m : UCL_Matrix) : Nat := m.host.rows

/-- Translation of `UCL_Matrix::cols` (line 133): `host.cols()`. -/
def UCL_Matrix.cols (m : UCL_Matrix) : Nat := m.host.cols

/-- Translation of `UCL_Matrix::operator[](i)` (line 136): `host[i]`,
the flat accessor into the host storage. -/
def UCL_Matrix.getFlat (m : UCL_Matrix) (i : Nat) : Int := m.host.data i

/-- Translation of `UCL_Matrix::operator()(row,col)` (lines 140-141):
`host[row*_cols+col]`, where `_cols` denotes the column count of the
(host) matrix, as in `UCL_H_Mat::operator()`. -/
def UCL_Matrix.get2d (m : UCL_Matrix) (row col : Nat) : Int :=
  m.host.data (row * m.host.cols + col)

/-- Reading element `i` through the device side: through the aliased
host storage for a view, through the independent device storage
otherwise (spec sections 3 and 5). -/
def UCL_Matrix.devGet (m : UCL_Matrix) (i : Nat) : Int :=
  match m.device.kind with
  | .view => m.host.data i
  | _ => m.device.data i

/-- The spec's per-Matrix storage strategy. -/
inductive Disposition
| VIEW
| INDEPENDENT
deriving DecidableEq

/-- The disposition realised by a UCL_Matrix: VIEW exactly when its
device buffer aliases the host storage. -/
def UCL_Matrix.disposition (m : UCL_Matrix) : Disposition :=
  if m.device.kind = .view then .VIEW else .INDEPENDENT

/-- Whether the matrix is in the fully cleared (UNALLOCATED) state: no
storage held on either side and zero shape everywhere. -/
def UCL_Matrix.fullyCleared (m : UCL_Matrix) : Bool :=
  !m.host.allocated && m.host.rows == 0 && m.host.cols == 0 &&
  m.device.kind == .unalloc && m.device.rows == 0 && m.device.cols == 0

/-- Whether the matrix is in an ALLOCATED state: host storage held and
the device buffer bound (owned or view). -/
def UCL_Matrix.isAllocated (m : UCL_Matrix) : Bool :=
  m.host.allocated && !(m.device.kind == .unalloc)

/-- Example state: a 2×3 float/float matrix allocated against a device
that shares memory with the host, so the VIEW strategy applies. -/
def exView : UCL_Matrix :=
  ((UCL_Matrix.init .tfloat .tfloat).alloc 2 3 true UCL_SUCCESS UCL_SUCCESS
    .UCL_RW_OPTIMIZED .UCL_READ_WRITE).2

/-- Example state: a 2×3 float/double matrix allocated against a device
that does not share memory with the host, so an independent device
allocation is performed. -/
def exIndep : UCL_Matrix :=
  ((UCL_Matrix.init .tfloat .tdouble).alloc 2 3 false UCL_SUCCESS UCL_SUCCESS
    .UCL_RW_OPTIMIZED .UCL_READ_WRITE).2

/-! Field lemmas for the buffer clears, used throughout the claim
proofs. -/

@[simp]
theorem UCL_H_Mat.hclear_allocated (h : UCL_H_Mat) :
    h.clear.allocated = false := by
  unfold UCL_H_Mat.clear
  split <;> simp_all

@[simp]
theorem UCL_H_Mat.hclear_rows (h : UCL_H_Mat) : h.clear.rows = 0 := by
  unfold UCL_H_Mat.clear
  split <;> rfl

@[simp]
theorem UCL_H_Mat.hclear_cols (h : UCL_H_Mat) : h.clear.cols = 0 := by
  unfold UCL_H_Mat.clear
  split <;> rfl

@[simp]
theorem UCL_H_Mat.hclear_data (h : UCL_H_Mat) : h.clear.data = h.data := by
  unfold UCL_H_Mat.clear
  split <;> rfl

@[simp]
theorem UCL_H_Mat.hclear_alloc_calls (h : UCL_H_Mat) :
    h.clear.alloc_calls = h.alloc_calls := by
  unfold UCL_H_Mat.clear
  split <;> rfl

@[simp]
theorem UCL_H_Mat.hclear_alloc_succ (h : UCL_H_Mat) :
    h.clear.alloc_succ = h.alloc_succ := by
  unfold UCL_H_Mat.clear
  split <;> rfl

@[simp]
theorem UCL_H_Mat.hclear_zero_ops (h : UCL_H_Mat) :
    h.clear.zero_ops = h.zero_ops := by
  unfold UCL_H_Mat.clear
  split <;> rfl

theorem UCL_H_Mat.hclear_free_count (h : UCL_H_Mat) :
    h.clear.free_count = h.free_count + (if h.allocated then 1 else 0) := by
  unfold UCL_H_Mat.clear
  split <;> simp_all

@[simp]
theorem UCL_D_Mat.dclear_kind (d : UCL_D_Mat) : d.clear.kind = .unalloc := by
  rcases d with ⟨k, r, c, dd, a1, a2, f⟩
  cases k <;> rfl

@[simp]
theorem UCL_D_Mat.dclear_rows (d : UCL_D_Mat) : d.clear.rows = 0 := by
  rcases d with ⟨k, r, c, dd, a1, a2, f⟩
  cases k <;> rfl

@[simp]
theorem UCL_D_Mat.dclear_cols (d : UCL_D_Mat) : d.clear.cols = 0 := by
  rcases d with ⟨k, r, c, dd, a1, a2, f⟩
  cases k <;> rfl

@[simp]
theorem UCL_D_Mat.dclear_data (d : UCL_D_Mat) : d.clear.data = d.data := by
  rcases d with ⟨k, r, c, dd, a1, a2, f⟩
  cases k <;> rfl

@[simp]
theorem UCL_D_Mat.dclear_alloc_calls (d : UCL_D_Mat) :
    d.clear.alloc_calls = d.alloc_calls := by
  rcases d with ⟨k, r, c, dd, a1, a2, f⟩
  cases k <;> rfl

@[simp]
theorem UCL_D_Mat.dclear_alloc_succ (d : UCL_D_Mat) :
    d.clear.alloc_succ = d.alloc_succ := by
  rcases d with ⟨k, r, c, dd, a1, a2, f⟩
  cases k <;> rfl

theorem UCL_D_Mat.dclear_free_count (d : UCL_D_Mat) :
    d.clear.free_count
      = d.free_count + (if d.kind = .owned then 1 else 0) := by
  rcases d with ⟨k, r, c, dd, a1, a2, f⟩
  cases k <;> simp [UCL_D_Mat.clear]

/-- Claim C1: after a successful allocation, the disposition is VIEW if
and only if the host element type equals the device element type and the
device shares physical memory with the host; in every other case the
disposition is INDEPENDENT and a separate device allocation is
performed, while in the VIEW case no device allocation call is made. -/
theorem claim_C1 (m : UCL_Matrix) (rows cols : Nat) (shm : Bool)
    (k1 k2 : UCL_MEMOPT) :
    ((m.alloc rows cols shm UCL_SUCCESS UCL_SUCCESS k1 k2).2.disposition
        = .VIEW ↔ (m.hosttype = m.devtype ∧ shm = true))
    ∧ (¬(m.hosttype = m.devtype ∧ shm = true) →
        (m.alloc rows cols shm UCL_SUCCESS UCL_SUCCESS k1 k2).2.disposition
          = .INDEPENDENT
        ∧ (m.alloc rows cols shm UCL_SUCCESS UCL_SUCCESS
            k1 k2).2.device.alloc_calls = m.device.alloc_calls + 1)
    ∧ (m.hosttype = m.devtype ∧ shm = true →
        (m.alloc rows cols shm UCL_SUCCESS UCL_SUCCESS
          k1 k2).2.device.alloc_calls = m.device.alloc_calls) := by
  by_cases hc : m.hosttype = m.devtype ∧ shm = true
  · simp [UCL_Matrix.alloc, UCL_H_Mat.alloc, ucl_same_type, hc.1, hc.2,
      UCL_Matrix.disposition, UCL_D_Mat.view, UCL_SUCCESS, hc]
  · have hb : (ucl_same_type m.hosttype m.devtype && shm) = false := by
      cases hs : shm
      · simp
      · simp only [hs, and_true] at hc
        simp [ucl_same_type, hc]
    simp [UCL_Matrix.alloc, UCL_H_Mat.alloc, hb, UCL_Matrix.disposition,
      UCL_D_Mat.alloc, UCL_SUCCESS, hc]

/-- Witness for claim C1: the float/float shared-memory allocation takes
the VIEW disposition with no device allocation call; the float/double
non-shared allocation takes INDEPENDENT with one device allocation. -/
theorem claim_C1_witness :
    exView.disposition = .VIEW
    ∧ exIndep.disposition = .INDEPENDENT
    ∧ exIndep.device.alloc_calls
        = (UCL_Matrix.init .tfloat .tdouble).device.alloc_calls + 1
    ∧ exView.device.alloc_calls
        = (UCL_Matrix.init .tfloat .tfloat).device.alloc_calls := by
  refine ⟨?_, ?_, ?_, ?_⟩
  · exact (claim_C1 (UCL_Matrix.init .tfloat .tfloat) 2 3 true
      .UCL_RW_OPTIMIZED .UCL_READ_WRITE).1.mpr ⟨rfl, rfl⟩
  · exact ((claim_C1 (UCL_Matrix.init .tfloat .tdouble) 2 3 false
      .UCL_RW_OPTIMIZED .UCL_READ_WRITE).2.1 (by decide)).1
  · exact ((claim_C1 (UCL_Matrix.init .tfloat .tdouble) 2 3 false
      .UCL_RW_OPTIMIZED .UCL_READ_WRITE).2.1 (by decide)).2
  · exact (claim_C1 (UCL_Matrix.init .tfloat .tfloat) 2 3 true
      .UCL_RW_OPTIMIZED .UCL_READ_WRITE).2.2 ⟨rfl, rfl⟩

/-- Claim C8: clear() is idempotent and total — clearing twice equals
clearing once (as states), after a clear numel() is zero, and clear() on
a never-allocated Matrix is an exact no-op. -/
theorem claim_C8 (m : UCL_Matrix) (ht dt : UCLTypeId) :
    m.clear.clear = m.clear
    ∧ (m.clear).numel = 0
    ∧ (UCL_Matrix.init ht dt).clear = UCL_Matrix.init ht dt := by
  refine ⟨?_, ?_, ?_⟩
  · rcases m with ⟨mht, mdt, ⟨ha, hr, hc, hd, a1, a2, f1, z1⟩,
      ⟨dk, dr, dc, dd, b1, b2, f2⟩⟩
    cases ha <;> cases dk <;>
      simp [UCL_Matrix.clear, UCL_H_Mat.clear, UCL_D_Mat.clear]
  · simp [UCL_Matrix.clear, UCL_Matrix.numel, UCL_H_Mat.numel]
  · rfl

/-- Claim C10: the 2D accessor and the flat accessor agree in row-major
order — m(row, col) reads the same host element as m[row*cols()+col],
and in particular m(0, col) = m[col]. -/
theorem claim_C10 (m : UCL_Matrix) (row col : Nat)
    (hr : row < m.rows) (hc : col < m.cols) :
    m.get2d row col = m.getFlat (row * m.cols + col)
    ∧ m.get2d 0 col = m.getFlat col := by
  constructor
  · rfl
  · simp [UCL_Matrix.get2d, UCL_Matrix.getFlat]

/-- Witness for claim C10 on the allocated 2×3 example matrix at
(row, col) = (1, 2). -/
theorem claim_C10_witness :
    exView.get2d 1 2 = exView.getFlat (1 * exView.cols + 2)
    ∧ exView.get2d 0 2 = exView.getFlat 2 :=
  claim_C10 exView 1 2 (by decide) (by decide)

/-- Claim C4: clear() never issues a device free on a VIEW-disposition
Matrix, frees the independent device storage exactly once on an
allocated INDEPENDENT-disposition Matrix, releases the host storage
whenever any is held (regardless of disposition), and resets the shape
to zero. -/
theorem claim_C4 (m : UCL_Matrix) :
    (m.disposition = .VIEW →
      (m.clear).device.free_count = m.device.free_count)
    ∧ (m.disposition = .INDEPENDENT → m.isAllocated = true →
      (m.clear).device.free_count = m.device.free_count + 1)
    ∧ (m.host.allocated = true →
      (m.clear).host.free_count = m.host.free_count + 1)
    ∧ (m.clear).numel = 0 ∧ (m.clear).rows = 0 ∧ (m.clear).cols = 0 := by
  refine ⟨?_, ?_, ?_, ?_, ?_, ?_⟩
  · intro hv
    have hk : m.device.kind = .view := by
      by_contra hne
      simp [UCL_Matrix.disposition, hne] at hv
    simp [UCL_Matrix.clear, UCL_D_Mat.dclear_free_count, hk]
  · intro hi hA
    have hk : m.device.kind = .owned := by
      rcases hkk : m.device.kind with _ | _ | _
      · simp [UCL_Matrix.isAllocated, hkk] at hA
      · rfl
      · simp [UCL_Matrix.disposition, hkk] at hi
    simp [UCL_Matrix.clear, UCL_D_Mat.dclear_free_count, hk]
  · intro hA
    simp [UCL_Matrix.clear, UCL_H_Mat.hclear_free_count, hA]
  · simp [UCL_Matrix.clear, UCL_Matrix.numel, UCL_H_Mat.numel]
  · simp [UCL_Matrix.clear, UCL_Matrix.rows]
  · simp [UCL_Matrix.clear, UCL_Matrix.cols]

/-- Witness for claim C4: the VIEW example matrix is cleared with no
device free, the INDEPENDENT example matrix with exactly one device
free and one host free, and the shape resets to zero. -/
theorem claim_C4_witness :
    (exView.clear).device.free_count = exView.device.free_count
    ∧ (exIndep.clear).device.free_count = exIndep.device.free_count + 1
    ∧ (exIndep.clear).host.free_count = exIndep.host.free_count + 1
    ∧ (exIndep.clear).numel = 0 :=
  ⟨(claim_C4 exView).1 (by decide),
   (claim_C4 exIndep).2.1 (by decide) (by decide),
   (claim_C4 exIndep).2.2.1 (by decide),
   (claim_C4 exIndep).2.2.2.1⟩

/-- Claim C7: after a successful allocate, numel() = rows*cols, rows()
and cols() report the requested shape, and the host and device buffers
report the same rows and cols (invariant I1). -/
theorem claim_C7 (m : UCL_Matrix) (rows cols : Nat) (shm : Bool)
    (k1 k2 : UCL_MEMOPT) :
    (m.alloc rows cols shm UCL_SUCCESS UCL_SUCCESS k1 k2).1 = UCL_SUCCESS
    ∧ (m.alloc rows cols shm UCL_SUCCESS UCL_SUCCESS k1 k2).2.numel
        = rows * cols
    ∧ (m.alloc rows cols shm UCL_SUCCESS UCL_SUCCESS k1 k2).2.rows = rows
    ∧ (m.alloc rows cols shm UCL_SUCCESS UCL_SUCCESS k1 k2).2.cols = cols
    ∧ (m.alloc rows cols shm UCL_SUCCESS UCL_SUCCESS k1 k2).2.device.rows
        = (m.alloc rows cols shm UCL_SUCCESS UCL_SUCCESS k1 k2).2.host.rows
    ∧ (m.alloc rows cols shm UCL_SUCCESS UCL_SUCCESS k1 k2).2.device.cols
        = (m.alloc rows cols shm UCL_SUCCESS UCL_SUCCESS
            k1 k2).2.host.cols := by
  cases hb : ucl_same_type m.hosttype m.devtype && shm <;>
    simp [UCL_Matrix.alloc, UCL_H_Mat.alloc, UCL_D_Mat.alloc,
      UCL_D_Mat.view, hb, UCL_SUCCESS, UCL_Matrix.numel, UCL_H_Mat.numel,
      UCL_Matrix.rows, UCL_Matrix.cols]

/-- Claim C2 counterexample: with host element type float and device
element type double (independent path) and a device allocator that
fails with status -4, alloc returns -4 but the freshly allocated host
buffer is NOT released: it is still allocated with 2×3 elements, no
host free was issued, and the Matrix is not in the cleared state. -/
theorem claim_C2_counterexample :
    ((UCL_Matrix.init .tfloat .tdouble).alloc 2 3 false UCL_SUCCESS (-4)
        .UCL_RW_OPTIMIZED .UCL_READ_WRITE).1 = -4
    ∧ ((UCL_Matrix.init .tfloat .tdouble).alloc 2 3 false UCL_SUCCESS (-4)
        .UCL_RW_OPTIMIZED .UCL_READ_WRITE).2.host.allocated = true
    ∧ ((UCL_Matrix.init .tfloat .tdouble).alloc 2 3 false UCL_SUCCESS (-4)
        .UCL_RW_OPTIMIZED .UCL_READ_WRITE).2.host.free_count = 0
    ∧ ((UCL_Matrix.init .tfloat .tdouble).alloc 2 3 false UCL_SUCCESS (-4)
        .UCL_RW_OPTIMIZED .UCL_READ_WRITE).2.numel = 6
    ∧ ((UCL_Matrix.init .tfloat .tdouble).alloc 2 3 false UCL_SUCCESS (-4)
        .UCL_RW_OPTIMIZED .UCL_READ_WRITE).2.fullyCleared = false := by
  decide

/-- Claim C2 (amended): when the host allocation succeeds and the
independent device allocation fails, alloc returns the device error and
leaves the device buffer cleared, but it does NOT release the host
buffer: the host side stays allocated with the requested shape (so the
Matrix is not returned to the UNALLOCATED state). -/
theorem claim_C2_amended (m : UCL_Matrix) (rows cols : Nat) (shm : Bool)
    (e2 : Int) (k1 k2 : UCL_MEMOPT)
    (hc : (ucl_same_type m.hosttype m.devtype && shm) = false)
    (he : e2 ≠ UCL_SUCCESS) :
    (m.alloc rows cols shm UCL_SUCCESS e2 k1 k2).1 = e2
    ∧ (m.alloc rows cols shm UCL_SUCCESS e2 k1 k2).2.host.allocated = true
    ∧ (m.alloc rows cols shm UCL_SUCCESS e2 k1 k2).2.host.rows = rows
    ∧ (m.alloc rows cols shm UCL_SUCCESS e2 k1 k2).2.host.cols = cols
    ∧ (m.alloc rows cols shm UCL_SUCCESS e2 k1 k2).2.numel = rows * cols
    ∧ (m.alloc rows cols shm UCL_SUCCESS e2 k1 k2).2.host.free_count
        = m.host.free_count + (if m.host.allocated then 1 else 0)
    ∧ (m.alloc rows cols shm UCL_SUCCESS e2 k1 k2).2.device.kind
        = .unalloc := by
  have he' : ¬(e2 = 0) := by simpa [UCL_SUCCESS] using he
  simp [UCL_Matrix.alloc, UCL_H_Mat.alloc, UCL_D_Mat.alloc, hc,
    UCL_SUCCESS, he', UCL_Matrix.numel, UCL_H_Mat.numel,
    UCL_H_Mat.hclear_free_count]

/-- Witness for claim C2 (amended) at the concrete counterexample
input. -/
theorem claim_C2_witness :
    ((UCL_Matrix.init .tfloat .tdouble).alloc 2 3 false UCL_SUCCESS (-4)
        .UCL_RW_OPTIMIZED .UCL_READ_WRITE).1 = -4
    ∧ ((UCL_Matrix.init .tfloat .tdouble).alloc 2 3 false UCL_SUCCESS (-4)
        .UCL_RW_OPTIMIZED .UCL_READ_WRITE).2.host.allocated = true :=
  ⟨(claim_C2_amended (UCL_Matrix.init .tfloat .tdouble) 2 3 false (-4)
      .UCL_RW_OPTIMIZED .UCL_READ_WRITE (by decide) (by decide)).1,
   (claim_C2_amended (UCL_Matrix.init .tfloat .tdouble) 2 3 false (-4)
      .UCL_RW_OPTIMIZED .UCL_READ_WRITE (by decide) (by decide)).2.1⟩

/-- Claim C3 counterexample: on the VIEW example matrix a single zero()
call applies two zeroing operations to the shared storage (host.zero()
and device.zero() both target the aliased host storage), not one. -/
theorem claim_C3_counterexample :
    exView.disposition = .VIEW
    ∧ exView.host.zero_ops = 0
    ∧ (exView.zero).host.zero_ops = 2 := by
  decide

/-- Claim C3 (amended): on a VIEW-disposition Matrix, zero() zeroes the
shared storage twice per call — once through the host side and once more
through the device side, which aliases the same storage — rather than
exactly once; the double zeroing is idempotent in value, so every
element still reads zero afterwards. -/
theorem claim_C3_amended (m : UCL_Matrix) (hv : m.disposition = .VIEW) :
    (m.zero).host.zero_ops = m.host.zero_ops + 2
    ∧ ∀ i, i < m.numel → (m.zero).getFlat i = 0 := by
  have hk : m.device.kind = .view := by
    by_contra hne
    simp [UCL_Matrix.disposition, hne] at hv
  constructor
  · simp [UCL_Matrix.zero, hk, UCL_H_Mat.zeroFirst]
  · intro i hi
    simp only [UCL_Matrix.numel, UCL_H_Mat.numel] at hi
    simp [UCL_Matrix.zero, hk, UCL_H_Mat.zeroFirst, UCL_Matrix.getFlat]
    intro h1
    simp [UCL_H_Mat.numel, hi]

/-- Witness for claim C3 (amended) on the VIEW example matrix. -/
theorem claim_C3_witness :
    (exView.zero).host.zero_ops = exView.host.zero_ops + 2
    ∧ (exView.zero).getFlat 0 = 0 :=
  ⟨(claim_C3_amended exView (by decide)).1,
   (claim_C3_amended exView (by decide)).2 0 (by decide)⟩

/-- Claim C6 counterexample: reallocating the INDEPENDENT example matrix
with a host allocator that fails with status -11 returns -11 and leaves
numel() = 0, but the device storage of the first allocation survives
(still owned, 2×3 = 6 elements, never freed), so the Matrix is not in a
cleared state. -/
theorem claim_C6_counterexample :
    (exIndep.alloc 3 3 false (-11) UCL_SUCCESS
        .UCL_RW_OPTIMIZED .UCL_READ_WRITE).1 = -11
    ∧ (exIndep.alloc 3 3 false (-11) UCL_SUCCESS
        .UCL_RW_OPTIMIZED .UCL_READ_WRITE).2.numel = 0
    ∧ (exIndep.alloc 3 3 false (-11) UCL_SUCCESS
        .UCL_RW_OPTIMIZED .UCL_READ_WRITE).2.device.kind = .owned
    ∧ (exIndep.alloc 3 3 false (-11) UCL_SUCCESS
        .UCL_RW_OPTIMIZED .UCL_READ_WRITE).2.device.numel = 6
    ∧ (exIndep.alloc 3 3 false (-11) UCL_SUCCESS
        .UCL_RW_OPTIMIZED .UCL_READ_WRITE).2.device.free_count = 0
    ∧ (exIndep.alloc 3 3 false (-11) UCL_SUCCESS
        .UCL_RW_OPTIMIZED .UCL_READ_WRITE).2.fullyCleared = false := by
  decide

/-- Claim C6 (amended): when the host allocation fails, alloc returns
the host allocator's error, the device buffer is not touched at all (no
device allocation or view is attempted), the host side is left cleared
and numel() = 0; however any device storage held from a previous
allocation is NOT released, so the Matrix as a whole need not be in a
cleared state. -/
theorem claim_C6_amended (m : UCL_Matrix) (rows cols : Nat) (shm : Bool)
    (e1 e2 : Int) (k1 k2 : UCL_MEMOPT) (he : e1 ≠ UCL_SUCCESS) :
    (m.alloc rows cols shm e1 e2 k1 k2).1 = e1
    ∧ (m.alloc rows cols shm e1 e2 k1 k2).2.device = m.device
    ∧ (m.alloc rows cols shm e1 e2 k1 k2).2.numel = 0
    ∧ (m.alloc rows cols shm e1 e2 k1 k2).2.host.allocated = false
    ∧ (m.alloc rows cols shm e1 e2 k1 k2).2.host.rows = 0
    ∧ (m.alloc rows cols shm e1 e2 k1 k2).2.host.cols = 0 := by
  have he' : ¬(e1 = 0) := by simpa [UCL_SUCCESS] using he
  simp [UCL_Matrix.alloc, UCL_H_Mat.alloc, UCL_SUCCESS, he',
    UCL_Matrix.numel, UCL_H_Mat.numel]

/-- Witness for claim C6 (amended) at the concrete counterexample
input. -/
theorem claim_C6_witness :
    (exIndep.alloc 3 3 false (-11) UCL_SUCCESS
        .UCL_RW_OPTIMIZED .UCL_READ_WRITE).1 = -11
    ∧ (exIndep.alloc 3 3 false (-11) UCL_SUCCESS
        .UCL_RW_OPTIMIZED .UCL_READ_WRITE).2.numel = 0 :=
  ⟨(claim_C6_amended exIndep 3 3 false (-11) UCL_SUCCESS
      .UCL_RW_OPTIMIZED .UCL_READ_WRITE (by decide)).1,
   (claim_C6_amended exIndep 3 3 false (-11) UCL_SUCCESS
      .UCL_RW_OPTIMIZED .UCL_READ_WRITE (by decide)).2.2.1⟩

/-- Claim C5: allocate-clear-free round trip — allocating a fresh Matrix
and then allocating again (with any shapes, device capabilities and
hints, both allocations succeeding) succeeds, yields the second shape,
and leaves no residual storage from the first allocation: exactly one
host allocation is live (every earlier one was implicitly released), and
exactly one device allocation is live when the final disposition is
INDEPENDENT, none when it is a VIEW. -/
theorem claim_C5 (ht dt : UCLTypeId) (r1 c1 r2 c2 : Nat)
    (shm1 shm2 : Bool) (k1 k2 k3 k4 : UCL_MEMOPT) :
    (((UCL_Matrix.init ht dt).alloc r1 c1 shm1 UCL_SUCCESS UCL_SUCCESS
        k1 k2).2.alloc r2 c2 shm2 UCL_SUCCESS UCL_SUCCESS k3 k4).1
      = UCL_SUCCESS
    ∧ (((UCL_Matrix.init ht dt).alloc r1 c1 shm1 UCL_SUCCESS UCL_SUCCESS
        k1 k2).2.alloc r2 c2 shm2 UCL_SUCCESS UCL_SUCCESS k3 k4).2.rows = r2
    ∧ (((UCL_Matrix.init ht dt).alloc r1 c1 shm1 UCL_SUCCESS UCL_SUCCESS
        k1 k2).2.alloc r2 c2 shm2 UCL_SUCCESS UCL_SUCCESS k3 k4).2.cols = c2
    ∧ (((UCL_Matrix.init ht dt).alloc r1 c1 shm1 UCL_SUCCESS UCL_SUCCESS
        k1 k2).2.alloc r2 c2 shm2 UCL_SUCCESS UCL_SUCCESS k3 k4).2.numel
      = r2 * c2
    ∧ (((UCL_Matrix.init ht dt).alloc r1 c1 shm1 UCL_SUCCESS UCL_SUCCESS
        k1 k2).2.alloc r2 c2 shm2 UCL_SUCCESS UCL_SUCCESS
          k3 k4).2.host.alloc_succ
      = (((UCL_Matrix.init ht dt).alloc r1 c1 shm1 UCL_SUCCESS UCL_SUCCESS
        k1 k2).2.alloc r2 c2 shm2 UCL_SUCCESS UCL_SUCCESS
          k3 k4).2.host.free_count + 1
    ∧ (((UCL_Matrix.init ht dt).alloc r1 c1 shm1 UCL_SUCCESS UCL_SUCCESS
        k1 k2).2.alloc r2 c2 shm2 UCL_SUCCESS UCL_SUCCESS
          k3 k4).2.device.alloc_succ
      = (((UCL_Matrix.init ht dt).alloc r1 c1 shm1 UCL_SUCCESS UCL_SUCCESS
        k1 k2).2.alloc r2 c2 shm2 UCL_SUCCESS UCL_SUCCESS
          k3 k4).2.device.free_count
        + (if (((UCL_Matrix.init ht dt).alloc r1 c1 shm1 UCL_SUCCESS
            UCL_SUCCESS k1 k2).2.alloc r2 c2 shm2 UCL_SUCCESS UCL_SUCCESS
              k3 k4).2.device.kind = .owned then 1 else 0) := by
  cases hb1 : ucl_same_type ht dt && shm1 <;>
    cases hb2 : ucl_same_type ht dt && shm2 <;>
      simp [UCL_Matrix.alloc, UCL_H_Mat.alloc, UCL_D_Mat.alloc,
        UCL_D_Mat.view, UCL_H_Mat.clear, UCL_D_Mat.clear,
        UCL_Matrix.init, UCL_H_Mat.init, UCL_D_Mat.init, hb1, hb2,
        UCL_SUCCESS, UCL_Matrix.numel, UCL_H_Mat.numel,
        UCL_Matrix.rows, UCL_Matrix.cols]

/-- Claim C9: for an allocated Matrix and n ≤ numel(), zero(n) sets
elements [0, n) of both the host side and the device side to zero and
leaves elements [n, numel()) of both sides unmodified; the full zero()
sets every element read through the flat accessor over [0, numel()) to
zero. -/
theorem claim_C9 (m : UCL_Matrix) (n : Nat)
    (hall : m.isAllocated = true) (hn : n ≤ m.numel) :
    (∀ i, i < n → (m.zeroN n).getFlat i = 0 ∧ (m.zeroN n).devGet i = 0)
    ∧ (∀ i, n ≤ i → i < m.numel →
        (m.zeroN n).getFlat i = m.getFlat i
        ∧ (m.zeroN n).devGet i = m.devGet i)
    ∧ (∀ i, i < m.numel → (m.zero).getFlat i = 0) := by
  rcases hk : m.device.kind with _ | _ | _
  · simp [UCL_Matrix.isAllocated, hk] at hall
  · refine ⟨?_, ?_, ?_⟩
    · intro i hi
      simp [UCL_Matrix.zeroN, hk, UCL_H_Mat.zeroFirst,
        UCL_D_Mat.zeroFirst, UCL_Matrix.getFlat, UCL_Matrix.devGet, hi]
    · intro i hni hi
      have hni' : ¬(i < n) := by omega
      simp [UCL_Matrix.zeroN, hk, UCL_H_Mat.zeroFirst,
        UCL_D_Mat.zeroFirst, UCL_Matrix.getFlat, UCL_Matrix.devGet, hni']
    · intro i hi
      simp only [UCL_Matrix.numel, UCL_H_Mat.numel] at hi
      simp [UCL_Matrix.zero, hk, UCL_H_Mat.zeroFirst,
        UCL_D_Mat.zeroFirst, UCL_Matrix.getFlat, UCL_H_Mat.numel, hi]
  · refine ⟨?_, ?_, ?_⟩
    · intro i hi
      simp [UCL_Matrix.zeroN, hk, UCL_H_Mat.zeroFirst,
        UCL_Matrix.getFlat, UCL_Matrix.devGet, hi]
    · intro i hni hi
      have hni' : ¬(i < n) := by omega
      simp [UCL_Matrix.zeroN, hk, UCL_H_Mat.zeroFirst,
        UCL_Matrix.getFlat, UCL_Matrix.devGet, hni']
    · intro i hi
      simp only [UCL_Matrix.numel, UCL_H_Mat.numel] at hi
      simp [UCL_Matrix.zero, hk, UCL_H_Mat.zeroFirst,
        UCL_Matrix.getFlat, UCL_H_Mat.numel]
      intro h1
      simp [hi]

/-- Witness for claim C9: on the allocated 2×3 VIEW example matrix with
n = 2, element 1 of both sides reads zero after zero(2), element 4 of
both sides is unmodified, and element 5 reads zero after a full
zero(). -/
theorem claim_C9_witness :
    ((exView.zeroN 2).getFlat 1 = 0 ∧ (exView.zeroN 2).devGet 1 = 0)
    ∧ ((exView.zeroN 2).getFlat 4 = exView.getFlat 4
        ∧ (exView.zeroN 2).devGet 4 = exView.devGet 4)
    ∧ (exView.zero).getFlat 5 = 0 :=
  ⟨(claim_C9 exView 2 (by decide) (by decide)).1 1 (by decide),
   (claim_C9 exView 2 (by decide) (by decide)).2.1 4 (by decide)
     (by decide),
   (claim_C9 exView 2 (by decide) (by decide)).2.2 5 (by decide)⟩
